import Mathlib

/-
Verification of the kindergarten authorization runtime.

Shallow embedding of the core of the library: rules (src/Rule.js,
src/rules/Type.js, src/rules/Definition.js), governesses
(src/governesses/HeadGoverness.js, EasyGoverness, StrictGoverness),
perimeters (src/Perimeter.js), purposes (src/Purpose.js) and the sandbox
(src/Sandbox.js).  JavaScript objects become Lean structures, in-place
mutation becomes explicit state passing, and thrown errors become
Except values.  Callbacks that may perform effects are modelled as
state-threading functions over an abstract world type.
-/

namespace Kindergarten

/-- Model of a JavaScript primitive value as it flows through rule
verification: undefined, booleans, numbers and strings.  Reference
equality on such primitives coincides with structural equality. -/
inductive JsValue where
  | undef
  | bool (b : Bool)
  | num (n : Int)
  | str (s : String)
  deriving DecidableEq, Repr

/-- JavaScript stringification of a primitive value, as performed by
RegExp.test on its argument. -/
def JsValue.jsToString : JsValue → String
  | .undef => "undefined"
  | .bool b => if b then "true" else "false"
  | .num n => toString n
  | .str s => s

/-- The error conditions raised by the library (src/errors). -/
inductive KError where
  | accessDenied (msg : String)
  | argumentError (msg : String)
  | wrongRuleDefinition (msg : String)
  | noSandboxError
  | noPurposeError
  | restrictedMethodError (msg : String)
  | noExposedMethodError (msg : String)
  | noGovernessError
  deriving DecidableEq, Repr

/-- A raw rule definition value, before classification by
Definition._resolve (src/rules/Definition.js).  An array becomes items,
a RegExp is modelled by its matching predicate on the stringified
subject, a function by a boolean predicate on the argument list, and
every other JavaScript value (booleans, strings, numbers, undefined)
is carried as a plain value, which matches none of the three
classifications in Definition.TYPES. -/
inductive RuleDef where
  | items (l : List JsValue)
  | regex (test : String → Bool)
  | customMethod (f : List JsValue → Bool)
  | jsVal (v : JsValue)

/-- A rule definition after successful classification by
Definition._resolve: definition.type is items, regex or customMethod
and the corresponding property holds the raw definition. -/
inductive ResolvedDefinition where
  | items (l : List JsValue)
  | regex (test : String → Bool)
  | customMethod (f : List JsValue → Bool)

/-- Definition._resolve: find the first entry of Definition.TYPES whose
condition accepts the raw definition.  The conditions are, in order:
isArray and not empty (items); isRegExp (regex); isFunction
(customMethod).  Any other value, including booleans and empty arrays,
matches no entry and resolution fails with WrongRuleDefinition. -/
def Definition.resolve : RuleDef → Option ResolvedDefinition
  | .items l => if l.isEmpty then none else some (.items l)
  | .regex t => some (.regex t)
  | .customMethod f => some (.customMethod f)
  | .jsVal _ => none

/-- The isStrictByDefault flag of each entry of Definition.TYPES:
items is not strict by default, regex and customMethod are. -/
def ResolvedDefinition.isStrictByDefault : ResolvedDefinition → Bool
  | .items _ => false
  | .regex _ => true
  | .customMethod _ => true

/-- JavaScript template-literal display of a raw definition, used in the
WrongRuleDefinition message of Definition._resolve.  Only unclassifiable
definitions (plain values and empty arrays) can reach that message. -/
def RuleDef.display : RuleDef → String
  | .jsVal v => v.jsToString
  | .items l => String.intercalate "," (l.map (fun v =>
      match v with
      | .undef => ""
      | w => w.jsToString))
  | .regex _ => "[object RegExp]"
  | .customMethod _ => "[object Function]"

/-- First character class of the action-name pattern [a-z_$][\w$]*
with the case-insensitive flag (src/rules/Type.js TYPE_REGEX and
src/utils/AllowedMethodsService.js METHOD_NAME_REGEX). -/
def isIdentStart (c : Char) : Bool :=
  (Char.ofNat 97 ≤ c && c ≤ Char.ofNat 122) ||
  (Char.ofNat 65 ≤ c && c ≤ Char.ofNat 90) ||
  c = Char.ofNat 95 || c = Char.ofNat 36

/-- Subsequent character class [\w$] = [A-Za-z0-9_$]. -/
def isIdentChar (c : Char) : Bool :=
  isIdentStart c || (Char.ofNat 48 ≤ c && c ≤ Char.ofNat 57)

/-- Whether a character list matches [a-z_$][\w$]* case-insensitively. -/
def isActionNameChars : List Char → Bool
  | [] => false
  | c :: cs => isIdentStart c && cs.all isIdentChar

/-- Whether a string matches METHOD_NAME_REGEX. -/
def methodNameOk (s : String) : Bool :=
  isActionNameChars s.data

/-- Splitting a character list at every space, matching
String.prototype.split-like decomposition used to model TYPE_REGEX:
the regex can(not)? [a-z_$][\w$]* admits exactly one space. -/
def splitOnSpace : List Char → List (List Char)
  | [] => [[]]
  | c :: rest =>
    let r := splitOnSpace rest
    if c = Char.ofNat 32 then [] :: r
    else (c :: r.headD []) :: r.tail

/-- The JavaScript reserved words list of
AllowedMethodsService._getReservedWords. -/
def reservedWords : List String :=
  ["abstract", "arguments", "await", "boolean", "break", "byte",
   "case", "catch", "char", "class", "const", "continue",
   "debugger", "default", "delete", "do", "double", "else",
   "enum", "eval", "export", "extends", "false", "final",
   "finally", "float", "for", "function", "goto", "if",
   "implements", "import", "in", "instanceof", "int", "interface",
   "let", "long", "native", "new", "null", "package",
   "private", "protected", "public", "return", "short", "static",
   "super", "switch", "synchronized", "this", "throw", "throws",
   "transient", "true", "try", "typeof", "var", "void",
   "volatile", "while", "with", "yield"]

/-- The custom unsafe list of AllowedMethodsService._getCustomUnsafeList. -/
def customUnsafeList : List String :=
  ["constructor", "prototype", "hasOwnProperty", "isPrototypeOf",
   "propertyIsEnumerable", "toLocaleString", "toString", "valueOf"]

/-- AllowedMethodsService.isRestricted, with the keys of the dummy
object passed explicitly: a name is restricted when it fails
METHOD_NAME_REGEX, collides with an own property of the dummy object,
or is in the custom unsafe list or the reserved words list. -/
def AllowedMethodsService.isRestricted (dummyKeys : List String) (methodName : String) : Bool :=
  if !(methodNameOk methodName) then true
  else
    dummyKeys.contains methodName ||
    customUnsafeList.contains methodName ||
    reservedWords.contains methodName

/-- Parsed form of a rule string (src/rules/Type.js): the keyword
can/cannot is matched case-insensitively and the captured action name
must match [a-z_$][\w$]* (case-insensitive), with exactly one space
between them and nothing else. -/
def parseRuleString (s : String) : Option (Bool × String) :=
  match splitOnSpace s.data with
  | [kw, act] =>
    if (kw.map Char.toLower = "can".data) && isActionNameChars act then
      some (true, String.mk act)
    else if (kw.map Char.toLower = "cannot".data) && isActionNameChars act then
      some (false, String.mk act)
    else none
  | _ => none

/-- The Type component of a Rule (src/rules/Type.js): the raw rule
string, the extracted action name, and the polarity flag _isPositive
(true for can rules, false for cannot rules). -/
structure RuleType where
  isPositive : Bool
  action : String
  raw : String
  deriving DecidableEq, Repr

/-- Type.isNegative: negation of isPositive. -/
def RuleType.isNegative (t : RuleType) : Bool :=
  !t.isPositive

/-- Type.isOfType: the action of the rule equals the queried action. -/
def RuleType.isOfType (t : RuleType) (action : String) : Bool :=
  t.action == action

/-- The Type constructor (src/rules/Type.js): match the rule string
against TYPE_REGEX, failing with WrongRuleDefinition when the string
does not match, then validate the action name against a fresh
AllowedMethodsService (whose dummy object is empty). -/
def RuleType.make (s : String) : Except KError RuleType :=
  match parseRuleString s with
  | none =>
    .error (.wrongRuleDefinition
      ("Invalid rule string format: \"" ++ s ++
        "\". Expected \"can <action>\" or \"cannot <action>\"."))
  | some (pos, act) =>
    if AllowedMethodsService.isRestricted [] act then
      .error (.wrongRuleDefinition
        ("Cannot create a rule \"" ++ s ++ "\". The action type \"" ++ act ++
          "\" is invalid or restricted."))
    else
      .ok { isPositive := pos, action := act, raw := s }

/-- A constructed Rule (src/Rule.js): its parsed type and its resolved
definition.  The perimeterId field models the _perimeter back-reference
set by HeadGoverness.learnRules; JavaScript object identity of
perimeters is modelled by a numeric id. -/
structure Rule where
  type : RuleType
  definition : ResolvedDefinition
  perimeterId : Option Nat := none

/-- Message of the ArgumentError raised by HeadGoverness.addRule. -/
def addRuleErrorMessage : String :=
  "Governess cannot learn the rule. Does it inherit from Rule class?"

/-- The Rule constructor: build the Type (which may throw), then
resolve the definition (which throws WrongRuleDefinition when the raw
definition matches none of Definition.TYPES). -/
def Rule.make (str : String) (defn : RuleDef) : Except KError Rule :=
  match RuleType.make str with
  | .error e => .error e
  | .ok t =>
    match Definition.resolve defn with
    | none =>
      .error (.wrongRuleDefinition
        ("Cannot create a new rule \"" ++ t.raw ++
          "\". Wrong rule definition provided: " ++ defn.display))
    | some d => .ok { type := t, definition := d }

/-- Rule._verifyItems: the subject is the first argument (undefined
when absent); the result is whether some listed item equals the
subject.  The instanceof branch of the source applies only to
constructor-valued items, which the primitive value domain of this
model does not contain; for primitive items instanceof throws, the
exception is swallowed, and only the === comparison remains. -/
def Rule.verifyItems (l : List JsValue) (args : List JsValue) : Bool :=
  l.any (fun item => item == args.headD JsValue.undef)

/-- Rule._verifyRegex: the regex is applied to the stringified first
argument. -/
def Rule.verifyRegex (test : String → Bool) (args : List JsValue) : Bool :=
  test (args.headD JsValue.undef).jsToString

/-- Rule._verifyCustomMethod: the custom function is applied to the
full argument list.  The ruleContext binding only selects the this
value of the call and does not otherwise alter the predicate, so it is
absorbed into the predicate itself. -/
def Rule.verifyCustomMethod (f : List JsValue → Bool) (args : List JsValue) : Bool :=
  f args

/-- The dispatch step of Rule.verify: the raw verification result of
the definition, before the polarity adjustment. -/
def Rule.rawVerification (r : Rule) (args : List JsValue) : Bool :=
  match r.definition with
  | .items l => Rule.verifyItems l args
  | .regex t => Rule.verifyRegex t args
  | .customMethod f => Rule.verifyCustomMethod f args

/-- Rule.verify (src/Rule.js): dispatch on the definition type, then
return the raw result for a positive (can) rule and its negation for a
negative (cannot) rule. -/
def Rule.verify (r : Rule) (args : List JsValue) : Bool :=
  if r.type.isPositive then r.rawVerification args
  else !(r.rawVerification args)

/-- Definition.isStrict as written in src/rules/Definition.js: a
definition is strict when the rule is negative or its type is strict
by default (regex and customMethod).  This is a prototype method; see
Rule.isStrictPropertyTruthy for how HeadGoverness.isAllowed actually
reads it. -/
def Rule.isStrictMethod (r : Rule) : Bool :=
  r.type.isNegative || r.definition.isStrictByDefault

/-- The expression rule.definition.isStrict as evaluated by
HeadGoverness.isAllowed: the property is accessed without being
invoked, so it yields the method object itself, which is truthy for
every rule regardless of its definition kind. -/
def Rule.isStrictPropertyTruthy (_r : Rule) : Bool :=
  true

/-- The base governess (src/governesses/HeadGoverness.js): an ordered
rule list and the _unguarded flag, which the constructor initialises
to false.  The unguarded setter coerces with a double negation, which
on Bool is the identity. -/
structure HeadGoverness where
  rules : List Rule := []
  unguarded : Bool := false

/-- HeadGoverness.getRules: with a truthy action, the rules whose type
matches it; an empty action string is falsy in JavaScript, in which
case every rule is returned. -/
def HeadGoverness.getRules (g : HeadGoverness) (action : String) : List Rule :=
  if action = "" then g.rules
  else g.rules.filter (fun r => r.type.isOfType action)

/-- HeadGoverness.isAllowed: when unguarded, always true.  Otherwise,
among the rules matching the action (each of which passes the isRule
check by construction in this typed model), allowRules collects the
positive rules whose verification is true, and strictDisallowRules
collects the negative rules whose verification is true together with
the positive rules for which rule.definition.isStrict is truthy and
verification is false.  Because the source accesses isStrict as a
property of a prototype method rather than calling it
(Rule.isStrictPropertyTruthy), the second disjunct fires for every
failing positive rule.  The verdict is: allowRules nonempty and
strictDisallowRules empty. -/
def HeadGoverness.isAllowed (g : HeadGoverness) (action : String) (args : List JsValue) : Bool :=
  if g.unguarded then true
  else
    let matching := g.getRules action
    let allowRules := matching.filter (fun r => r.type.isPositive && r.verify args)
    let strictDisallowRules := matching.filter (fun r =>
      (r.type.isNegative && r.verify args) ||
      (r.type.isPositive && r.isStrictPropertyTruthy && !(r.verify args)))
    !allowRules.isEmpty && strictDisallowRules.isEmpty

/-- HeadGoverness.isNotAllowed: negation of isAllowed. -/
def HeadGoverness.isNotAllowed (g : HeadGoverness) (action : String) (args : List JsValue) : Bool :=
  !(g.isAllowed action args)

/-- The message of the AccessDenied error raised by
HeadGoverness.guard: it interpolates the action and, when the target
(the first argument) is a string, the target text, else the words
"the target". -/
def guardMessage (action : String) (target : JsValue) : String :=
  "Child is not allowed to " ++ action ++ " " ++
    (match target with
      | .str s => s
      | _ => "the target") ++ "."

/-- HeadGoverness.guard: compute isAllowed; when allowed return the
first argument (the target, undefined when no argument is supplied),
otherwise throw AccessDenied with guardMessage. -/
def HeadGoverness.guard (g : HeadGoverness) (action : String) (args : List JsValue) :
    Except KError JsValue :=
  let target := args.headD JsValue.undef
  if g.isAllowed action args then .ok target
  else .error (.accessDenied (guardMessage action target))

/-- HeadGoverness.governed: the base interception seam simply applies
the callback to the arguments.  A callback may have effects, modelled
by threading an abstract world state; the callingContext parameter of
the source only selects the this binding and is absorbed into the
callback. -/
def HeadGoverness.governed {σ : Type} (_g : HeadGoverness)
    (callback : σ → List JsValue → σ × JsValue) (args : List JsValue) (world : σ) :
    σ × JsValue :=
  callback world args

/-- An argument to HeadGoverness.addRule: either an actual Rule or any
other value, for which isRule is false. -/
inductive RuleArg where
  | rule (r : Rule)
  | notRule (v : JsValue)

/-- The iteration of HeadGoverness.addRule: for each argument, first
check isRule and throw ArgumentError when it fails — at which point
the rules pushed by earlier iterations remain in place — else
increment the counter and push the rule. -/
def HeadGoverness.addRuleLoop (g : HeadGoverness) (counter : Nat) :
    List RuleArg → HeadGoverness × Except KError Nat
  | [] => (g, .ok counter)
  | .rule r :: rest =>
    HeadGoverness.addRuleLoop { g with rules := g.rules ++ [r] } (counter + 1) rest
  | .notRule _ :: _ => (g, .error (.argumentError addRuleErrorMessage))

/-- HeadGoverness.addRule: iterate over the variadic arguments,
returning the governess state at the end (or at the throw) together
with the count of added rules or the ArgumentError. -/
def HeadGoverness.addRule (g : HeadGoverness) (args : List RuleArg) :
    HeadGoverness × Except KError Nat :=
  HeadGoverness.addRuleLoop g 0 args

/-- HeadGoverness.hasRule: some already-learned rule has the same raw
rule string and originates from the same perimeter (object identity,
modelled by the numeric perimeter id). -/
def HeadGoverness.hasRule (g : HeadGoverness) (perimeterId : Nat) (rule : Rule) : Bool :=
  g.rules.any (fun r => r.type.raw == rule.type.raw && r.perimeterId == some perimeterId)

/-- HeadGoverness.doUnguarded: save the current unguarded flag, set it
to true, run the callback (which receives the governess and may both
mutate it and throw), and restore the saved flag in a finally block,
so the restoration happens whether the callback returns or throws; the
callback result is passed through either way. -/
def HeadGoverness.doUnguarded (g : HeadGoverness)
    (callback : HeadGoverness → HeadGoverness × Except KError JsValue) :
    HeadGoverness × Except KError JsValue :=
  let previousUnguardedState := g.unguarded
  let g1 := { g with unguarded := true }
  let out := callback g1
  ({ out.1 with unguarded := previousUnguardedState }, out.2)

/-- HeadGoverness.isUnguarded. -/
def HeadGoverness.isUnguarded (g : HeadGoverness) : Bool :=
  g.unguarded

/-- HeadGoverness.hasAnyRules. -/
def HeadGoverness.hasAnyRules (g : HeadGoverness) : Bool :=
  !g.rules.isEmpty

/-- EasyGoverness (the Permissive variant): the constructor runs the
HeadGoverness constructor and then sets unguarded to true; it changes
nothing else. -/
def EasyGoverness.new : HeadGoverness :=
  { rules := [], unguarded := true }

/-- StrictGoverness (the CountBalanced variant): the base state plus
the _guardCount and _governedCount counters, both starting at 0. -/
structure StrictGoverness extends HeadGoverness where
  guardCount : Nat := 0
  governedCount : Nat := 0

/-- StrictGoverness._resetCounts. -/
def StrictGoverness.resetCounts (s : StrictGoverness) : StrictGoverness :=
  { s with guardCount := 0, governedCount := 0 }

/-- Message of the AccessDenied error raised by
StrictGoverness.governed. -/
def strictGovernessMessage : String :=
  "StrictGoverness: guard() was not called for an exposed method or was called an incorrect number of times."

/-- StrictGoverness.governed: run the base governed (which executes
the callback to completion), increment _governedCount, and when the
governed count now exceeds the guard count while the governess is
guarded, reset both counters and throw AccessDenied; otherwise return
the callback result. -/
def StrictGoverness.governed {σ : Type} (s : StrictGoverness)
    (callback : σ → List JsValue → σ × JsValue) (args : List JsValue) (world : σ) :
    (StrictGoverness × σ) × Except KError JsValue :=
  let base := s.toHeadGoverness.governed callback args world
  let s1 := { s with governedCount := s.governedCount + 1 }
  if s1.governedCount > s1.guardCount && !s1.unguarded then
    ((s1.resetCounts, base.1), .error (.accessDenied strictGovernessMessage))
  else
    ((s1, base.1), .ok base.2)

/-- StrictGoverness.guard: increment _guardCount, then delegate to the
base guard (whose AccessDenied, if any, propagates after the
increment). -/
def StrictGoverness.guard (s : StrictGoverness) (action : String) (args : List JsValue) :
    StrictGoverness × Except KError JsValue :=
  let s1 := { s with guardCount := s.guardCount + 1 }
  (s1, s1.toHeadGoverness.guard action args)

/-- A Perimeter (src/Perimeter.js), after construction: its purpose
name, the merged govern map (an ordered association list with distinct
keys, modelling the own enumerable properties of the govern object
after extractGovern), the exposed operation names, the optional own
governess (_governess), the purposeGoverness installed by
Sandbox.loadPerimeter, the _sandbox back-reference (by sandbox id),
the child copied from the sandbox, and the names of the extra callable
members merged from the options object.  The id field models
JavaScript object identity. -/
structure Perimeter where
  id : Nat
  purpose : String
  govern : List (String × RuleDef) := []
  expose : List String := []
  ownGoverness : Option HeadGoverness := none
  purposeGoverness : Option HeadGoverness := none
  sandboxId : Option Nat := none
  child : JsValue := .undef
  methods : List String := []

/-- The iteration of HeadGoverness.learnRules over the govern entries
of a perimeter: construct a Rule for each entry (a construction error
propagates, leaving the rules added by earlier iterations in place),
tag it with the originating perimeter, and append it through addRule
unless an identical rule from the same perimeter is already known. -/
def HeadGoverness.learnRulesLoop (pid : Nat) (g : HeadGoverness) (keys : Nat) :
    List (String × RuleDef) → HeadGoverness × Except KError Nat
  | [] => (g, .ok keys)
  | (key, ruleDef) :: rest =>
    match Rule.make key ruleDef with
    | .error e => (g, .error e)
    | .ok rule =>
      let rule := { rule with perimeterId := some pid }
      if g.hasRule pid rule then
        HeadGoverness.learnRulesLoop pid g keys rest
      else
        HeadGoverness.learnRulesLoop pid ((g.addRule [RuleArg.rule rule]).1) (keys + 1) rest

/-- HeadGoverness.learnRules: iterate over the govern object of the
perimeter and return the number of newly learned rules.  Function
definitions get their ruleContext defaulted to the perimeter, which
only selects the this binding of the predicate and is absorbed into
the predicate in this model. -/
def HeadGoverness.learnRules (g : HeadGoverness) (p : Perimeter) :
    HeadGoverness × Except KError Nat :=
  HeadGoverness.learnRulesLoop p.id g 0 p.govern

/-- A value assigned to the sandbox property of a Perimeter: either an
actual Sandbox (referenced by id and child, the only parts the setter
reads) or any other value, for which isSandbox is false. -/
inductive SandboxArg where
  | sandbox (id : Nat) (child : JsValue)
  | other (v : JsValue)

/-- The sandbox setter of Perimeter (src/Perimeter.js): throw
NoSandboxError when the value is not a Sandbox; otherwise store the
back-reference and copy the child of the sandbox.  There is no check
that the perimeter is still unbound. -/
def Perimeter.setSandbox (p : Perimeter) (value : SandboxArg) : Except KError Perimeter :=
  match value with
  | .other _ => .error .noSandboxError
  | .sandbox sid schild => .ok { p with sandboxId := some sid, child := schild }

/-- Perimeter.hasOwnGoverness: whether _governess holds a governess. -/
def Perimeter.hasOwnGoverness (p : Perimeter) : Bool :=
  p.ownGoverness.isSome

/-- The method names present on the Perimeter prototype; an exposed
name that matches one of them still passes the isFunction check in
Purpose._loadPerimeter. -/
def perimeterPrototypeMethods : List String :=
  ["getPurpose", "getSandbox", "getGoverness", "hasOwnGoverness",
   "guard", "governed", "isAllowed", "isNotAllowed", "extractGovern"]

/-- Whether perimeter[name] is a function: a callable member merged
from the options object or a prototype method. -/
def Perimeter.hasCallable (p : Perimeter) (name : String) : Bool :=
  p.methods.contains name || perimeterPrototypeMethods.contains name

/-- A Purpose (src/Purpose.js): its name, the sandbox back-reference
(by id) and the names of the trampoline operations installed by
_loadPerimeter.  The trampolines themselves are closures invoking
perimeter.governed and are not carried as data. -/
structure Purpose where
  name : String
  sandboxId : Nat
  methodNames : List String := []

/-- The iteration of Purpose._loadPerimeter over the exposed names:
throw RestrictedMethodError when the name is restricted (the message
interpolates the whole expose array, as the source does), throw
NoExposedMethodError when the name does not resolve to a callable
member of the perimeter, and otherwise install the trampoline
(overwriting, with a warning, any method already present).  The
restricted-key snapshot is taken once per call because the service is
constructed in non-strict mode. -/
def Purpose.loadPerimeterLoop (restrictedKeys : List String) (p : Perimeter)
    (pu : Purpose) : List String → Purpose × Except KError Unit
  | [] => (pu, .ok ())
  | m :: rest =>
    if AllowedMethodsService.isRestricted restrictedKeys m then
      (pu, .error (.restrictedMethodError
        ("Cannot create a method " ++ String.intercalate "," p.expose ++
          ". It is restricted.")))
    else if !(p.hasCallable m) then
      (pu, .error (.noExposedMethodError
        ("The exposed method " ++ m ++ " is not defined on perimeter " ++
          p.purpose ++ ".")))
    else
      Purpose.loadPerimeterLoop restrictedKeys p
        { pu with methodNames :=
            if pu.methodNames.contains m then pu.methodNames
            else pu.methodNames ++ [m] }
        rest

/-- Purpose._loadPerimeter: nothing happens for an empty expose list;
otherwise iterate over the exposed names with the restricted keys
captured at entry (the own properties _name and _sandbox plus the
already-installed trampoline names). -/
def Purpose.loadPerimeter (pu : Purpose) (p : Perimeter) : Purpose × Except KError Unit :=
  if p.expose.isEmpty then (pu, .ok ())
  else
    Purpose.loadPerimeterLoop (["_name", "_sandbox"] ++ pu.methodNames) p pu p.expose

/-- A Sandbox (src/Sandbox.js): the child, the main governess, the
loaded perimeters (_perimeters) and the Purpose objects installed as
own properties, keyed by purpose name in installation order.  The id
field models JavaScript object identity; governessInit models the
expression new this.governess.constructor(), the state a fresh
instance of the concrete governess class starts in. -/
structure Sandbox where
  id : Nat
  child : JsValue := .undef
  governess : HeadGoverness := {}
  governessInit : HeadGoverness := {}
  perimeters : List Perimeter := []
  purposes : List (String × Purpose) := []

/-- Sandbox.hasPerimeter on a purpose name: some loaded perimeter has
that purpose. -/
def Sandbox.hasPerimeter (s : Sandbox) (purpose : String) : Bool :=
  s.perimeters.any (fun p => p.purpose == purpose)

/-- Sandbox.hasPerimeter on a Perimeter argument: the source reduces
it to the purpose name of the perimeter. -/
def Sandbox.hasPerimeterP (s : Sandbox) (p : Perimeter) : Bool :=
  s.hasPerimeter p.purpose

/-- The own enumerable property names of a sandbox object: child,
_governess and _perimeters from the constructor, plus the installed
purpose names. -/
def Sandbox.ownKeys (s : Sandbox) : List String :=
  ["child", "_governess", "_perimeters"] ++ s.purposes.map (fun q => q.1)

/-- Replace the purpose stored under a name, or append it when the
name is new (installation of the own property this[name]). -/
def Sandbox.storePurpose (s : Sandbox) (name : String) (pu : Purpose) : Sandbox :=
  if s.purposes.any (fun q => q.1 == name) then
    { s with purposes := s.purposes.map (fun q => if q.1 == name then (name, pu) else q) }
  else
    { s with purposes := s.purposes ++ [(name, pu)] }

/-- Sandbox._extendPurpose: throw RestrictedMethodError when the
purpose name is restricted against the own keys of the sandbox (the
service is strict, so the keys are read at the moment of the check),
then reuse the Purpose already installed under this[name] or create a
fresh one, and load the perimeter into it. -/
def Sandbox.extendPurpose (s : Sandbox) (p : Perimeter) : Sandbox × Except KError Unit :=
  let name := p.purpose
  if AllowedMethodsService.isRestricted s.ownKeys name then
    (s, .error (.restrictedMethodError
      ("Cannot expose purpose " ++ name ++ " to sandbox. Restricted method name.")))
  else
    let pu :=
      match s.purposes.find? (fun q => q.1 == name) with
      | some q => q.2
      | none => { name := name, sandboxId := s.id }
    let out := pu.loadPerimeter p
    (s.storePurpose name out.1, out.2)

/-- The body of Sandbox.loadPerimeter for one perimeter, returning the
updated sandbox and whether the counter was incremented.  The steps of
the source, in order: skip (without counting) when the sandbox already
has a perimeter with this purpose; have the own governess of the
perimeter, if any, learn its rules (perimeter.governess resolves to
the own governess here — a perimeter reaching this branch is not yet
bound to this sandbox, and cross-sandbox bindings are outside this
model); install the purposeGoverness, a fresh instance of the concrete
class of the main governess, exactly once, and have it learn the
rules; have the main governess learn the rules; bind the perimeter to
the sandbox (the setter copies the child); push it onto _perimeters;
and extend the purpose.  An error thrown at any step leaves the
mutations of the earlier steps in place. -/
def Sandbox.loadPerimeterStep (s : Sandbox) (p : Perimeter) : Sandbox × Except KError Bool :=
  if s.hasPerimeterP p then (s, .ok false)
  else
    let step1 : Perimeter × Except KError Nat :=
      match p.ownGoverness with
      | some g =>
        let out := g.learnRules p
        ({ p with ownGoverness := some out.1 }, out.2)
      | none => (p, .ok 0)
    match step1 with
    | (_, .error e) => (s, .error e)
    | (p1, .ok _) =>
      let step2 : Perimeter × Except KError Nat :=
        match p1.purposeGoverness with
        | some _ => (p1, .ok 0)
        | none =>
          let out := s.governessInit.learnRules p1
          ({ p1 with purposeGoverness := some out.1 }, out.2)
      match step2 with
      | (_, .error e) => (s, .error e)
      | (p2, .ok _) =>
        let out3 := s.governess.learnRules p2
        let s1 := { s with governess := out3.1 }
        match out3.2 with
        | .error e => (s1, .error e)
        | .ok _ =>
          let p3 := { p2 with sandboxId := some s1.id, child := s1.child }
          let s2 := { s1 with perimeters := s1.perimeters ++ [p3] }
          let out4 := s2.extendPurpose p3
          match out4.2 with
          | .error e => (out4.1, .error e)
          | .ok _ => (out4.1, .ok true)

/-- The iteration of Sandbox.loadPerimeter: process each perimeter in
turn (each argument is a Perimeter in this typed model, so the
ArgumentError branch for non-perimeters cannot fire), accumulating the
count of newly added perimeters; an error stops the iteration with the
mutations made so far in place. -/
def Sandbox.loadPerimeterLoop (s : Sandbox) (counter : Nat) :
    List Perimeter → Sandbox × Except KError Nat
  | [] => (s, .ok counter)
  | p :: rest =>
    match Sandbox.loadPerimeterStep s p with
    | (s1, .error e) => (s1, .error e)
    | (s1, .ok counted) =>
      Sandbox.loadPerimeterLoop s1 (if counted then counter + 1 else counter) rest

/-- Sandbox.loadPerimeter: load the given perimeters and return the
count of newly added ones. -/
def Sandbox.loadPerimeter (s : Sandbox) (ps : List Perimeter) :
    Sandbox × Except KError Nat :=
  Sandbox.loadPerimeterLoop s 0 ps

/-- Verdict described by the specification (section 4.2), stated in
its words for comparison with HeadGoverness.isAllowed: among the rules
matching the action, the allow set holds the permit rules whose
verification is true, and the strict block set holds the forbid rules
whose verification is true together with the strict permit rules
(strict per the isStrict computation of the Definition class,
Rule.isStrictMethod) whose verification is false; the verdict is allow
set nonempty and strict block set empty. -/
def specIsAllowed (g : HeadGoverness) (action : String) (args : List JsValue) : Bool :=
  if g.unguarded then true
  else
    let matching := g.getRules action
    let allowSet := matching.filter (fun r => r.type.isPositive && r.verify args)
    let strictBlockSet := matching.filter (fun r =>
      (r.type.isNegative && r.verify args) ||
      (r.type.isPositive && r.isStrictMethod && !(r.verify args)))
    !allowSet.isEmpty && strictBlockSet.isEmpty

/-- Fixture: the rule constructed from "can play" with the item list
["toy"]. -/
def rulePlayToy : Rule :=
  { type := { isPositive := true, action := "play", raw := "can play" },
    definition := .items [JsValue.str "toy"] }

/-- Fixture: the rule constructed from "can play" with the item list
["ball"]. -/
def rulePlayBall : Rule :=
  { type := { isPositive := true, action := "play", raw := "can play" },
    definition := .items [JsValue.str "ball"] }

/-- Fixture: the rule constructed from "cannot run" with the item list
["slippery"]. -/
def ruleCannotRun : Rule :=
  { type := { isPositive := false, action := "run", raw := "cannot run" },
    definition := .items [JsValue.str "slippery"] }

/-- Fixture: a guarded governess holding two permit rules for the
action play, with item lists ["toy"] and ["ball"]. -/
def gTwoCan : HeadGoverness :=
  { rules := [rulePlayToy, rulePlayBall], unguarded := false }

/-- Fixture: a guarded governess holding the single rule
"can play": ["toy"]. -/
def gOneCan : HeadGoverness :=
  { rules := [rulePlayToy], unguarded := false }

/-- Fixture: an EasyGoverness that was taught the forbid rule
"cannot run": ["slippery"]. -/
def easyWithForbid : HeadGoverness :=
  (EasyGoverness.new.addRule [RuleArg.rule ruleCannotRun]).1

/-- Fixture: a StrictGoverness in its initial (balanced, guarded)
state, knowing the rule "can play": ["toy"]. -/
def sgBalanced : StrictGoverness :=
  { rules := [rulePlayToy], unguarded := false, guardCount := 0, governedCount := 0 }

/-- Fixture: an operation over a Nat-valued world that increments the
world and returns the string "ran". -/
def bumpOp : Nat → List JsValue → Nat × JsValue :=
  fun w _ => (w + 1, JsValue.str "ran")

/-- Fixture: a perimeter with purpose playground, one permit rule and
one exposed method. -/
def pPlay : Perimeter :=
  { id := 7, purpose := "playground",
    govern := [("can play", .items [JsValue.str "toy"])],
    expose := ["play"], methods := ["play"] }

/-- Fixture: a sandbox that already has the playground perimeter
loaded: the perimeter is bound and listed, the main governess knows
its rule, and the playground Purpose carries the trampoline. -/
def sWithPlay : Sandbox :=
  { id := 1, child := JsValue.str "kid",
    governess := { rules := [{ rulePlayToy with perimeterId := some 7 }] },
    governessInit := {},
    perimeters := [{ pPlay with sandboxId := some 1, child := JsValue.str "kid" }],
    purposes := [("playground",
      { name := "playground", sandboxId := 1, methodNames := ["play"] })] }

/-- Fixture: a perimeter already bound to the sandbox with id 1. -/
def pBound : Perimeter :=
  { id := 3, purpose := "area", sandboxId := some 1, child := JsValue.str "kid1" }

/-- Sanity check tying the fixtures to the Rule constructor: each
fixture rule is exactly what Rule.make builds from its rule string and
definition. -/
theorem fixture_rules_constructible :
    Rule.make "can play" (.items [JsValue.str "toy"]) = .ok rulePlayToy ∧
    Rule.make "can play" (.items [JsValue.str "ball"]) = .ok rulePlayBall ∧
    Rule.make "cannot run" (.items [JsValue.str "slippery"]) = .ok ruleCannotRun :=
  ⟨rfl, rfl, rfl⟩

/-- Helper: addRule never touches the unguarded flag. -/
theorem addRuleLoop_unguarded (g : HeadGoverness) (c : Nat) (rs : List RuleArg) :
    ((HeadGoverness.addRuleLoop g c rs).1).unguarded = g.unguarded := by
  induction rs generalizing g c with
  | nil => rfl
  | cons a rest ih =>
    cases a with
    | rule r => simpa using ih { g with rules := g.rules ++ [r] } (c + 1)
    | notRule v => rfl

/-- Helper for C10: the addRule iteration, started at any counter,
appends exactly the rules preceding the first non-Rule argument and
then throws ArgumentError. -/
theorem addRuleLoop_partial (g : HeadGoverness) (c : Nat) (pre : List Rule)
    (bad : JsValue) (post : List RuleArg) :
    HeadGoverness.addRuleLoop g c (pre.map RuleArg.rule ++ RuleArg.notRule bad :: post) =
      ({ g with rules := g.rules ++ pre }, .error (.argumentError addRuleErrorMessage)) := by
  induction pre generalizing g c with
  | nil => simp [HeadGoverness.addRuleLoop]
  | cons r rest ih =>
    simp only [List.map_cons, List.cons_append, HeadGoverness.addRuleLoop, List.append_eq]
    rw [ih]
    simp [List.append_assoc]

/-- C1 (code bug): for a guarded governess, isAllowed is meant to deny
exactly when there is no verified permit rule or some matching rule is
a strict block — a verified forbid rule or a strict permit rule whose
verification fails.  The source reads rule.definition.isStrict without
invoking the method, so the test is always truthy and every permit
rule whose verification fails is treated as a strict block.  Witnessed
here: under gTwoCan the rule "can play": ["ball"] is an itemSet permit
rule, hence not strict, yet its failing verification makes the code
deny "play" on "toy" while the specified verdict allows it. -/
theorem c1_bug_isAllowed_strict_property :
    gTwoCan.isAllowed "play" [JsValue.str "toy"] = false ∧
    specIsAllowed gTwoCan "play" [JsValue.str "toy"] = true ∧
    rulePlayBall.isStrictMethod = false := by
  decide

/-- C2 counterexample: for the forbid rule "cannot run" with item list
["slippery"], the argument "slippery" matches the forbidden condition
(the raw items verification is true), yet rule.verify returns false —
the claim says it returns true exactly when the condition is
matched. -/
theorem c2_counterexample :
    ruleCannotRun.rawVerification [JsValue.str "slippery"] = true ∧
    ruleCannotRun.verify [JsValue.str "slippery"] = false := by
  decide

/-- C2 (amended): for every rule with forbid polarity, verify returns
the negation of the raw definition verification — true exactly when
the forbidden condition is NOT matched by the arguments. -/
theorem c2_amended_forbid_verify_negates (r : Rule) (args : List JsValue)
    (h : r.type.isPositive = false) :
    r.verify args = !(r.rawVerification args) := by
  simp [Rule.verify, h]

/-- Witness for C2 (amended), at the forbid rule "cannot run":
["slippery"] applied to ["slippery"]. -/
theorem c2_amended_witness :
    ruleCannotRun.type.isPositive = false ∧
    ruleCannotRun.verify [JsValue.str "slippery"] =
      !(ruleCannotRun.rawVerification [JsValue.str "slippery"]) :=
  ⟨rfl, c2_amended_forbid_verify_negates ruleCannotRun [JsValue.str "slippery"] rfl⟩

/-- C3 (code bug): a Rule cannot be constructed with a boolean
definition at all — the doc examples of the source build rules such as
new Rule("can play", true), but a boolean matches none of the three
entries of Definition.TYPES, so construction throws
WrongRuleDefinition for both polarities; a governess holding such a
sole rule can never exist. -/
theorem c3_boolean_definition_rejected :
    (∃ m, Rule.make "can play" (.jsVal (.bool true)) = .error (.wrongRuleDefinition m)) ∧
    (∃ m, Rule.make "cannot play" (.jsVal (.bool true)) = .error (.wrongRuleDefinition m)) :=
  ⟨⟨_, rfl⟩, ⟨_, rfl⟩⟩

/-- C4 counterexample: an EasyGoverness in its initial state holding
the matching forbid rule "cannot run": ["slippery"], whose
verification on the argument "nowhere" is true, still allows the
action — the claim says such a rule blocks it. -/
theorem c4_counterexample :
    easyWithForbid.rules = [ruleCannotRun] ∧
    easyWithForbid.unguarded = true ∧
    ruleCannotRun.type.isNegative = true ∧
    ruleCannotRun.type.isOfType "run" = true ∧
    ruleCannotRun.verify [JsValue.str "nowhere"] = true ∧
    easyWithForbid.isAllowed "run" [JsValue.str "nowhere"] = true := by
  refine ⟨rfl, rfl, rfl, ?_, ?_, ?_⟩ <;> decide

/-- C4 (amended): EasyGoverness is the base governess with unguarded
started at true; because isAllowed short-circuits to true for an
unguarded governess, every action is allowed in its initial state no
matter which rules it holds — verified forbid rules included. -/
theorem c4_amended_easy_allows_everything (rs : List RuleArg) (action : String)
    (args : List JsValue) :
    EasyGoverness.new.unguarded = true ∧
    EasyGoverness.new.rules = [] ∧
    ((EasyGoverness.new.addRule rs).1).isAllowed action args = true := by
  refine ⟨rfl, rfl, ?_⟩
  have h : ((EasyGoverness.new.addRule rs).1).unguarded = true := by
    simpa [HeadGoverness.addRule, EasyGoverness.new] using
      addRuleLoop_unguarded EasyGoverness.new 0 rs
  simp [HeadGoverness.isAllowed, h]

/-- C5: guard returns the first argument unchanged when isAllowed is
true, and otherwise throws exactly an AccessDenied whose message names
the action and, for a string target, the target text (and the words
"the target" otherwise); the two cases are exhaustive, so guard raises
nothing else. -/
theorem c5_guard_target_or_access_denied (g : HeadGoverness) (action : String)
    (args : List JsValue) :
    (g.isAllowed action args = true →
      g.guard action args = .ok (args.headD JsValue.undef)) ∧
    (g.isAllowed action args = false →
      g.guard action args = .error (.accessDenied
        ("Child is not allowed to " ++ action ++ " " ++
          (match args.headD JsValue.undef with
            | .str s => s
            | _ => "the target") ++ "."))) := by
  constructor <;> intro h <;> simp [HeadGoverness.guard, guardMessage, h]

/-- Witness for C5: under gOneCan the action "play" on "toy" is
allowed and guard returns the target, while "hop" with no arguments
has no matching rule and guard throws the AccessDenied message with
the words "the target". -/
theorem c5_witness :
    gOneCan.guard "play" [JsValue.str "toy"] = .ok (JsValue.str "toy") ∧
    gOneCan.guard "hop" [] =
      .error (.accessDenied "Child is not allowed to hop the target.") := by
  constructor
  · exact (c5_guard_target_or_access_denied gOneCan "play" [JsValue.str "toy"]).1 (by decide)
  · exact (c5_guard_target_or_access_denied gOneCan "hop" []).2 (by decide)

/-- C6: for a guarded StrictGoverness with balanced counters, governed
on an operation that never calls guard executes the operation to
completion (the world is updated by the operation), resets both
counters to zero and throws AccessDenied; whereas after a successful
guard call, governed throws nothing and returns the result of the
operation. -/
theorem c6_count_balanced (g : StrictGoverness) {σ : Type}
    (op : σ → List JsValue → σ × JsValue) (args gargs : List JsValue)
    (action : String) (w : σ) (v : JsValue)
    (hg : g.unguarded = false) (hb : g.guardCount = g.governedCount)
    (_hs : (g.guard action gargs).2 = .ok v) :
    (g.governed op args w =
      ((g.resetCounts, (op w args).1), .error (.accessDenied strictGovernessMessage))) ∧
    (((g.guard action gargs).1).governed op args w =
      (({ (g.guard action gargs).1 with governedCount := g.governedCount + 1 },
        (op w args).1), .ok (op w args).2)) := by
  constructor
  · simp [StrictGoverness.governed, HeadGoverness.governed, StrictGoverness.resetCounts,
      hg, hb]
  · simp [StrictGoverness.governed, StrictGoverness.guard, HeadGoverness.governed,
      hg, hb]

/-- Witness for C6: sgBalanced with the world-bumping operation.  The
unguarded governed call runs the operation (the world becomes 1),
zeroes the counters and raises AccessDenied; after guard "play" on
"toy" succeeds, governed returns the result "ran". -/
theorem c6_witness :
    (sgBalanced.governed bumpOp [] 0 =
      ((sgBalanced.resetCounts, 1), .error (.accessDenied strictGovernessMessage))) ∧
    (((sgBalanced.guard "play" [JsValue.str "toy"]).1).governed bumpOp [] 0 =
      (({ (sgBalanced.guard "play" [JsValue.str "toy"]).1 with governedCount := 1 },
        1), .ok (JsValue.str "ran"))) :=
  c6_count_balanced sgBalanced bumpOp [] [JsValue.str "toy"] "play" 0
    (JsValue.str "toy") rfl rfl rfl

/-- C7: doUnguarded runs the callback on the governess with unguarded
set to true, passes the callback outcome through (its return value on
normal return, its thrown error otherwise), and the resulting
governess always carries the prior unguarded value again — the
restoration happens whether the callback returns or throws. -/
theorem c7_doUnguarded_scoped (g : HeadGoverness)
    (cb : HeadGoverness → HeadGoverness × Except KError JsValue) :
    ((g.doUnguarded cb).1).unguarded = g.unguarded ∧
    (g.doUnguarded cb).2 = (cb { g with unguarded := true }).2 ∧
    (g.doUnguarded cb).1 =
      { (cb { g with unguarded := true }).1 with unguarded := g.unguarded } :=
  ⟨rfl, rfl, rfl⟩

/-- C8: loading a perimeter whose purpose name is already attached is
a no-op: the call counts it as 0 and the sandbox — perimeter list,
main governess rules and Purpose objects — is returned unchanged. -/
theorem c8_load_repeat_noop (s : Sandbox) (p : Perimeter)
    (h : s.hasPerimeter p.purpose = true) :
    s.loadPerimeter [p] = (s, .ok 0) := by
  simp [Sandbox.loadPerimeter, Sandbox.loadPerimeterLoop, Sandbox.loadPerimeterStep,
    Sandbox.hasPerimeterP, h]

/-- Witness for C8: reloading the playground perimeter into the
sandbox that already holds it returns the sandbox unchanged with
count 0. -/
theorem c8_witness :
    sWithPlay.loadPerimeter [pPlay] = (sWithPlay, .ok 0) :=
  c8_load_repeat_noop sWithPlay pPlay (by decide)

/-- C9 counterexample: the perimeter pBound is already bound to the
sandbox with id 1, yet assigning its sandbox property to a different
sandbox (id 2) succeeds and rebinds the back-reference — the claim
says the assignment must fail. -/
theorem c9_counterexample :
    pBound.setSandbox (.sandbox 2 (JsValue.str "kid2")) =
      .ok { pBound with sandboxId := some 2, child := JsValue.str "kid2" } :=
  rfl

/-- C9 (amended): the sandbox setter of Perimeter only validates that
the assigned value is a Sandbox, raising NoSandboxError otherwise;
assigning any Sandbox — including a different one to an already bound
perimeter — succeeds and rebinds the back-reference, copying the
child of the new sandbox. -/
theorem c9_amended_setter_rebinds (p : Perimeter) (sid : Nat) (schild : JsValue)
    (v : JsValue) :
    p.setSandbox (.sandbox sid schild) =
      .ok { p with sandboxId := some sid, child := schild } ∧
    p.setSandbox (.other v) = .error KError.noSandboxError :=
  ⟨rfl, rfl⟩

/-- C10: addRule is not atomic on error — called on a list whose first
non-Rule argument follows the rules pre, it throws ArgumentError while
the rules of pre have already been appended to the rule list, and
nothing at or after the invalid position is added. -/
theorem c10_addRule_partial_on_error (g : HeadGoverness) (pre : List Rule)
    (bad : JsValue) (post : List RuleArg) :
    g.addRule (pre.map RuleArg.rule ++ RuleArg.notRule bad :: post) =
      ({ g with rules := g.rules ++ pre }, .error (.argumentError addRuleErrorMessage)) :=
  addRuleLoop_partial g 0 pre bad post

end Kindergarten
